import Mathlib

/-!
Verification development for the client-categorisation-matrix application
(`src/main.py`).  The application loads a CSV-like table of client records,
validates its columns, normalizes the percentage column, renders a quadrant
scatter chart, and displays summary statistics.

The shallow embedding below models a pandas DataFrame as a `Table`: a list of
column names together with rows of cells, where a cell is either a string or
an already-parsed number (pandas `read_csv` type inference produces numeric
cells for numeric-looking columns and string cells otherwise).
-/

set_option maxRecDepth 4000

namespace ClientMatrix

/-- A single table cell: either a raw string (pandas `object` dtype) or a
numeric value (pandas numeric dtypes), modelled as a rational. -/
inductive Cell where
  | str : String → Cell
  | num : ℚ → Cell
deriving DecidableEq, Repr

/-- A DataFrame: column names plus rows of cells (row-major). -/
structure Table where
  columns : List String
  rows : List (List Cell)
deriving DecidableEq, Repr

/-- Index of the first occurrence of column `c` in a column list, as in
`df.columns` membership / positional lookup. -/
def colIdx (c : String) : List String → Option Nat
  | [] => none
  | x :: xs => if x = c then some 0 else (colIdx c xs).map (· + 1)

/-- Embedding of `str.replace('%', '')` from `clean_percentage_column`
(src/main.py line 51): every `%` character in the cell is removed, not only a
trailing one. -/
def removePct (s : String) : String := ⟨s.data.filter (fun c => c != '%')⟩

/-- Split a character list at the first `.`, as the decimal point of a float
literal.  A second `.` remains in the fractional part and fails the digit
check in `parseFloat`, as `float("1.2.3")` raises in Python. -/
def splitOnDot : List Char → (List Char × Option (List Char))
  | [] => ([], none)
  | c :: cs =>
    if c = '.' then ([], some cs)
    else
      let p := splitOnDot cs
      (c :: p.1, p.2)

/-- Numeric value of a digit string (most significant first). -/
def digitsVal (l : List Char) : Nat :=
  l.foldl (fun n c => 10 * n + (c.toNat - 48)) 0

/-- Embedding of Python `float(s)` / pandas `.astype(float)` on a single cell,
restricted to the decimal literals the application's data can contain: an
optional leading minus, digits, an optional decimal point and fraction
digits.  Any other string fails to parse (`none`), as `float()` raises. -/
def parseFloat (s : String) : Option ℚ :=
  let p : Bool × List Char :=
    match s.data with
    | '-' :: rest => (true, rest)
    | cs => (false, cs)
  let ip := (splitOnDot p.2).1
  let fp? := (splitOnDot p.2).2
  let ok : Bool :=
    ip.all Char.isDigit &&
      (match fp? with
       | none => !ip.isEmpty
       | some fp => fp.all Char.isDigit && (!ip.isEmpty || !fp.isEmpty))
  if ok then
    let ipv : ℚ := digitsVal ip
    let fpv : ℚ :=
      match fp? with
      | none => 0
      | some fp => (digitsVal fp : ℚ) / (10 : ℚ) ^ fp.length
    some (if p.1 then -(ipv + fpv) else ipv + fpv)
  else none

/-- Normalization of one percentage cell as a string: strip every `%`, then
parse as a float (src/main.py line 51). -/
def normalizeCell (s : String) : Option ℚ := parseFloat (removePct s)

/-- The percentage column name used by `clean_percentage_column`. -/
def pctCol : String := "%_of_Total_Revenue"

/-- Strategic-importance column name. -/
def siCol : String := "Strategic_Importance_(1-5)"

/-- Spend-potential column name. -/
def spendCol : String := "Spend_Potential_(1-5)"

/-- Relationship-risk column name. -/
def riskCol : String := "Relationship_Risk_(R/A/G)"

/-- Revenue column name. -/
def revCol : String := "FY25_Revenue"

/-- Numeric view of a cell: a numeric cell is already a number; a string cell
goes through `float()`. -/
def cellNum : Cell → Option ℚ
  | .num q => some q
  | .str s => parseFloat s

/-- String view of a cell, as Python `str(...)`. -/
def cellToString : Cell → String
  | .str s => s
  | .num q => toString q

/-- Cleaning of one percentage cell, `astype(str).str.replace('%','').astype(float)`
(src/main.py line 51).  On a cell that already holds a float the chain
`str` / `replace` / `float` round-trips the value exactly (a float's string
form never contains `%` and reparses to the same float), so a numeric cell is
left unchanged; a string cell is stripped of `%` and parsed, and a parse
failure raises (modelled as `none`). -/
def cleanCell : Cell → Option Cell
  | .num q => some (.num q)
  | .str s => (normalizeCell s).map .num

/-- Clean the cell at column index `i` of one row. -/
def cleanRow (i : Nat) (r : List Cell) : Option (List Cell) :=
  match r[i]? with
  | none => some r
  | some c => (cleanCell c).map fun c2 => r.set i c2

/-- Clean column index `i` across all rows; the first failing cell aborts the
whole operation, as the pandas `astype(float)` raises for the column. -/
def cleanRows (i : Nat) : List (List Cell) → Option (List (List Cell))
  | [] => some []
  | r :: rs =>
    match cleanRow i r, cleanRows i rs with
    | some r2, some rs2 => some (r2 :: rs2)
    | _, _ => none

/-- Embedding of `clean_percentage_column` (src/main.py lines 47-52): copy the
frame, and if the `%_of_Total_Revenue` column is present replace it by its
`%`-stripped float parse.  A parse failure in any cell raises (`none`). -/
def clean_percentage_column (t : Table) : Option Table :=
  match colIdx pctCol t.columns with
  | none => some t
  | some i => (cleanRows i t.rows).map fun rs => ⟨t.columns, rs⟩

/-- Column projection: the sequence of cells (as `Option`, `none` past a short
row) of column `c`, or `none` when the column is absent. -/
def getCol (t : Table) (c : String) : Option (List (Option Cell)) :=
  (colIdx c t.columns).map fun i => t.rows.map fun r => r[i]?

/-- The required column list of `validate_data` (src/main.py lines 76-83). -/
def required_columns : List String :=
  ["Client_Name",
   "Strategic_Importance_(1-5)",
   "Spend_Potential_(1-5)",
   "Relationship_Risk_(R/A/G)",
   "FY25_Revenue",
   "%_of_Total_Revenue"]

/-- Embedding of the list comprehension
`[col for col in required_columns if col not in df.columns]`
(src/main.py line 85): every missing required column, in required order. -/
def missing_columns (t : Table) : List String :=
  required_columns.filter fun c => !(t.columns.contains c)

/-- Embedding of `validate_data` (src/main.py lines 74-92): `True` exactly
when no required column is missing. -/
def validate_data (t : Table) : Bool :=
  (missing_columns t).isEmpty

/-- Parse every cell of column index `i` as a number; one bad cell fails the
column (pandas leaves the column as strings and every numeric use of it
raises). -/
def numCells (i : Nat) : List (List Cell) → Option (List ℚ)
  | [] => some []
  | r :: rs =>
    match (r[i]?).bind cellNum, numCells i rs with
    | some q, some qs => some (q :: qs)
    | _, _ => none

/-- Numeric view of a whole column. -/
def getNumCol (t : Table) (c : String) : Option (List ℚ) :=
  (colIdx c t.columns).bind fun i => numCells i t.rows

/-- String view of a whole column. -/
def getStrCol (t : Table) (c : String) : Option (List String) :=
  (colIdx c t.columns).map fun i =>
    t.rows.map fun r => cellToString ((r[i]?).getD (.str ""))

/-- Embedding of `df['Strategic_Importance_(1-5)'].mean()` (src/main.py
line 380): the arithmetic mean, which pandas reports as NaN (here `none`) on
an empty column rather than dividing zero by zero. -/
def meanSI (t : Table) : Option ℚ :=
  match getNumCol t siCol with
  | none => none
  | some qs => if qs.length = 0 then none else some (qs.sum / qs.length)

/-- Floor of a rational: Euclidean division of numerator by denominator. -/
def qfloor (x : ℚ) : ℤ := x.num.ediv x.den

/-- Rounding of `10*q` to an integer with ties to even, as Python float formatting rounds. -/
def rnd10 (q : ℚ) : ℤ :=
  let x := 10 * q
  let f := qfloor x
  let r := x - (f : ℚ)
  if r < 1 / 2 then f
  else if 1 / 2 < r then f + 1
  else if f % 2 = 0 then f else f + 1

/-- One-decimal fixed-point rendering, Python `f"{q:.1f}"`. -/
def fmt1 (q : ℚ) : String :=
  let n := rnd10 q
  let m := n.natAbs
  (if n < 0 then "-" else "") ++ toString (m / 10) ++ "." ++ toString (m % 10)

/-- Rendering `f"{avg:.1f}"` of a possibly-NaN mean: NaN prints as `"nan"`. -/
def formatMetric : Option ℚ → String
  | none => "nan"
  | some q => fmt1 q

/-- The `risk_labels` dict (src/main.py line 386). -/
def risk_labels : List (String × String) :=
  [("R", "Red (High Risk)"), ("A", "Amber (Medium Risk)"), ("G", "Green (Low Risk)")]

/-- Lookup `risk_labels.get(risk_str, risk_str)` (src/main.py line 391): an
unrecognized code falls back to its literal string. -/
def riskLabel (r : String) : String := (risk_labels.lookup r).getD r

/-- Sorted insertion by strictly greater count, keeping earlier entries ahead
on ties. -/
def insertDesc (p : String × Nat) : List (String × Nat) → List (String × Nat)
  | [] => [p]
  | q :: qs => if q.2 < p.2 then p :: q :: qs else q :: insertDesc p qs

/-- Sort an association list by count, descending. -/
def sortDesc : List (String × Nat) → List (String × Nat)
  | [] => []
  | p :: ps => insertDesc p (sortDesc ps)

/-- Embedding of `Series.value_counts()` (src/main.py line 385): one entry per
distinct value actually present, with its occurrence count, ordered by count
descending.  A value that does not occur has no entry. -/
def value_counts (vs : List String) : List (String × Nat) :=
  sortDesc (vs.dedup.map fun v => (v, vs.count v))

/-- The risk-distribution lines (src/main.py lines 384-391):
`f"• {risk_labels.get(risk_str, risk_str)}: {count} clients ({percentage:.1f}%)"`
with `percentage = (count / len(df)) * 100`. -/
def riskLines (t : Table) : List String :=
  match getStrCol t riskCol with
  | none => []
  | some vs =>
    (value_counts vs).map fun p =>
      "• " ++ riskLabel p.1 ++ ": " ++ toString p.2 ++ " clients (" ++
        fmt1 ((p.2 : ℚ) / (vs.length : ℚ) * 100) ++ "%)"

/-- The data-summary block of `main` (src/main.py lines 366-391). -/
structure Summary where
  totalClients : Nat
  totalRevenue : Option ℚ
  highRiskCount : Option Nat
  avgStrategicImportance : Option ℚ
  riskDistribution : List String
deriving DecidableEq, Repr

/-- Embedding of the summary metrics of `main` (src/main.py lines 366-391):
total client count (`len(df)`), `df['FY25_Revenue'].sum()`,
`len(df[df['Relationship_Risk_(R/A/G)'] == 'R'])`, the strategic-importance
mean, and the rendered risk-distribution lines.  A numeric computation over a
column with an unparseable cell raises in Python; it is `none` here, never a
zero fill. -/
def summarize (t : Table) : Summary :=
  { totalClients := t.rows.length
    totalRevenue := (getNumCol t revCol).map List.sum
    highRiskCount := (getStrCol t riskCol).map fun vs => vs.count "R"
    avgStrategicImportance := meanSI t
    riskDistribution := riskLines t }

/-- One shaded quadrant rectangle, `fig.add_shape(type="rect", ...)`
(src/main.py lines 125-140). -/
structure Shape where
  x0 : ℚ
  y0 : ℚ
  x1 : ℚ
  y1 : ℚ
  fillcolor : String
  opacity : ℚ
deriving DecidableEq, Repr

/-- One scatter point of `px.scatter` (src/main.py lines 100-122):
x = spend potential, y = strategic importance, size = revenue share, color
from the discrete risk color map (`none` when the risk code has no mapped
color). -/
structure PlotPoint where
  x : Option ℚ
  y : Option ℚ
  size : Option ℚ
  color : Option String
deriving DecidableEq, Repr

/-- Renderer-agnostic chart description assembled by `create_scatter_plot`. -/
structure ChartSpec where
  xrange : ℚ × ℚ
  yrange : ℚ × ℚ
  xdtick : ℚ
  ydtick : ℚ
  shapes : List Shape
  vlines : List ℚ
  hlines : List ℚ
  quadrantLabels : List (ℚ × ℚ × String)
  points : List PlotPoint
deriving DecidableEq, Repr

/-- The risk color map `{'R': '#FF4444', 'A': '#FFA500', 'G': '#00AA00'}`
(src/main.py line 97). -/
def color_map : List (String × String) :=
  [("R", "#FF4444"), ("A", "#FFA500"), ("G", "#00AA00")]

/-- Discrete color lookup for one risk code. -/
def lookupColor (r : String) : Option String := color_map.lookup r

/-- The encoding of one data row as a scatter point. -/
def mkPoint (cols : List String) (r : List Cell) : PlotPoint :=
  { x := (colIdx spendCol cols).bind fun i => (r[i]?).bind cellNum
    y := (colIdx siCol cols).bind fun i => (r[i]?).bind cellNum
    size := (colIdx pctCol cols).bind fun i => (r[i]?).bind cellNum
    color := (colIdx riskCol cols).bind fun i =>
      ((r[i]?).map cellToString).bind lookupColor }

/-- Embedding of `create_scatter_plot` (src/main.py lines 94-275): axis ranges
`[0.5, 5.5]` with tick spacing 1 on both axes, the four quadrant rectangles in
source order (Bronze, Platinum, Silver, Gold), the dividing lines at x=3 and
y=3, the quadrant label anchors, and one point per data row. -/
def create_scatter_plot (t : Table) : ChartSpec :=
  { xrange := (0.5, 5.5)
    yrange := (0.5, 5.5)
    xdtick := 1
    ydtick := 1
    shapes :=
      [⟨0.5, 3, 3, 5.5, "lightgray", 0.15⟩,
       ⟨3, 3, 5.5, 5.5, "lightblue", 0.15⟩,
       ⟨0.5, 0.5, 3, 3, "lightyellow", 0.15⟩,
       ⟨3, 0.5, 5.5, 3, "lightgreen", 0.15⟩]
    vlines := [3]
    hlines := [3]
    quadrantLabels :=
      [(1.75, 4.25, "Bronze"), (4.25, 4.25, "Platinum"),
       (1.75, 1.75, "Silver"), (4.25, 1.75, "Gold")]
    points := t.rows.map (mkPoint t.columns) }

/-- The validated branch of `main` (src/main.py lines 338-391): only when
`validate_data` succeeds are the chart and the summary built; a validation
failure short-circuits to the warning branch with no chart and no summary. -/
def run_pipeline (t : Table) : Option (ChartSpec × Summary) :=
  if validate_data t then some (create_scatter_plot t, summarize t) else none

/-- Modelled from the spec: `src/main.py` contains no classifier function —
the four quadrants exist only as shaded chart rectangles and label text
(src/main.py lines 125-150).  Spec §4.2 defines the Quadrant Classifier over
`(spend_potential, strategic_importance)`: fixed midpoint 3 on both axes, a
value exactly equal to 3 counted as high on its axis. -/
def classify_quadrant (spend importance : ℚ) : String :=
  if 3 ≤ spend then
    if 3 ≤ importance then "Platinum" else "Gold"
  else
    if 3 ≤ importance then "Bronze" else "Silver"

/-- The embedded 13-row demo dataset `DEMO_DATA` (src/main.py lines 28-41), as
loaded by `pd.read_csv` in `load_demo_data`; the percentage cells carry their
`%` suffix and are therefore strings. -/
def demo_table : Table :=
  { columns := required_columns
    rows :=
      [[.str "Arctic Tours", .str "1", .str "2", .str "R", .str "200000", .str "28%"],
       [.str "Blackpool Tower", .str "1", .str "2", .str "A", .str "5000", .str "1%"],
       [.str "Crest Hotels", .str "4", .str "1", .str "G", .str "35000", .str "5%"],
       [.str "Dan Air", .str "4", .str "5", .str "A", .str "26500", .str "4%"],
       [.str "EasyJetter", .str "5", .str "4", .str "G", .str "30000", .str "4%"],
       [.str "Finland Tourist Board", .str "1", .str "4", .str "A", .str "60000", .str "8%"],
       [.str "Grange Hotel Group", .str "3", .str "3", .str "R", .str "45000", .str "6%"],
       [.str "Hotelfinance.com", .str "4", .str "2", .str "A", .str "92500", .str "13%"],
       [.str "Iceland Tours", .str "5", .str "1", .str "R", .str "69500", .str "10%"],
       [.str "Jupiter Travel Ltd", .str "1", .str "1", .str "A", .str "8500", .str "1%"],
       [.str "Kenyan Safari Group", .str "2", .str "2", .str "A", .str "16000", .str "2%"],
       [.str "Lapland Holidays", .str "4", .str "3", .str "G", .str "16000", .str "2%"],
       [.str "Monte Carlo Yachting Group", .str "5", .str "5", .str "G", .str "105000", .str "15%"]] }

/-- The demo table after `clean_percentage_column`: the percentage column
parsed to numbers, everything else untouched. -/
def demoCleaned : Table :=
  { columns := required_columns
    rows :=
      [[.str "Arctic Tours", .str "1", .str "2", .str "R", .str "200000", .num 28],
       [.str "Blackpool Tower", .str "1", .str "2", .str "A", .str "5000", .num 1],
       [.str "Crest Hotels", .str "4", .str "1", .str "G", .str "35000", .num 5],
       [.str "Dan Air", .str "4", .str "5", .str "A", .str "26500", .num 4],
       [.str "EasyJetter", .str "5", .str "4", .str "G", .str "30000", .num 4],
       [.str "Finland Tourist Board", .str "1", .str "4", .str "A", .str "60000", .num 8],
       [.str "Grange Hotel Group", .str "3", .str "3", .str "R", .str "45000", .num 6],
       [.str "Hotelfinance.com", .str "4", .str "2", .str "A", .str "92500", .num 13],
       [.str "Iceland Tours", .str "5", .str "1", .str "R", .str "69500", .num 10],
       [.str "Jupiter Travel Ltd", .str "1", .str "1", .str "A", .str "8500", .num 1],
       [.str "Kenyan Safari Group", .str "2", .str "2", .str "A", .str "16000", .num 2],
       [.str "Lapland Holidays", .str "4", .str "3", .str "G", .str "16000", .num 2],
       [.str "Monte Carlo Yachting Group", .str "5", .str "5", .str "G", .str "105000", .num 15]] }

/-- The demo table with the `FY25_Revenue` column deleted, rows unchanged:
the missing-column scenario input. -/
def noFY25 : Table :=
  { columns :=
      ["Client_Name",
       "Strategic_Importance_(1-5)",
       "Spend_Potential_(1-5)",
       "Relationship_Risk_(R/A/G)",
       "%_of_Total_Revenue"]
    rows := [] }

/-- The validated demo table with zero rows: the empty-table scenario input. -/
def emptyDemo : Table := { columns := required_columns, rows := [] }

/-- A table whose percentage, revenue and strategic-importance cells all fail
to parse as numbers. -/
def badTable : Table :=
  { columns := required_columns
    rows := [[.str "X", .str "xx", .str "2", .str "R", .str "oops", .str "abc"]] }

/-- The risk column of the demo table, in row order. -/
def demoRisk : List String :=
  ["R", "A", "G", "A", "G", "A", "R", "A", "R", "A", "A", "G", "G"]

section Lemmas

/-- Filtering with the same predicate twice filters once. -/
theorem filter_self_idem {α : Type} (p : α → Bool) (l : List α) :
    (l.filter p).filter p = l.filter p := by
  induction l with
  | nil => rfl
  | cons a l ih =>
    simp only [List.filter_cons]
    by_cases h : p a = true
    · simp [List.filter_cons, h, ih]
    · simp [h, ih]

/-- After `removePct` no `%` character remains. -/
theorem contains_removePct_eq_false (l : List Char) :
    (l.filter (fun c => c != '%')).contains '%' = false := by
  induction l with
  | nil => rfl
  | cons a l ih =>
    simp only [List.filter_cons]
    by_cases h : a = '%'
    · simp [h, ih]
    · have hb : (a != '%') = true := bne_iff_ne.mpr h
      have hx : ('%' == a) = false := beq_eq_false_iff_ne.mpr (fun he => h he.symm)
      simp [hb, List.contains_cons, hx, ih]
      exact fun he => h he.symm

/-- Stripping a trailing `%` gives the same string as stripping none. -/
theorem removePct_append_pct (s : String) : removePct (s ++ "%") = removePct s := by
  have h : (s ++ "%").data = s.data ++ ['%'] := String.data_append s "%"
  simp only [removePct, h, List.filter_append]
  simp [List.filter_cons]

/-- Stripping twice equals stripping once: `removePct` is idempotent. -/
theorem removePct_idem (s : String) : removePct (removePct s) = removePct s := by
  simp only [removePct]
  rw [filter_self_idem]

/-- The index returned by `colIdx` points at an occurrence of the column name. -/
theorem colIdx_getElem {c : String} : ∀ {l : List String} {j : Nat},
    colIdx c l = some j → l[j]? = some c := by
  intro l
  induction l with
  | nil => intro j h; simp [colIdx] at h
  | cons x xs ih =>
    intro j h
    simp only [colIdx] at h
    by_cases hx : x = c
    · simp [hx] at h
      simp [← h, hx]
    · simp [hx] at h
      obtain ⟨j0, hj0, hj⟩ := h
      cases j with
      | zero => omega
      | succ j1 =>
        have : j0 = j1 := by omega
        subst this
        simpa using ih hj0

/-- Cleaning one row changes no cell outside column `i`. -/
theorem cleanRow_getElem_ne {i j : Nat} (hij : j ≠ i) {r r2 : List Cell}
    (h : cleanRow i r = some r2) : r2[j]? = r[j]? := by
  unfold cleanRow at h
  cases hr : r[i]? with
  | none => rw [hr] at h; simp at h; rw [h]
  | some c =>
    rw [hr] at h
    simp at h
    obtain ⟨c2, hc2, he⟩ := h
    rw [← he]
    exact List.getElem?_set_ne (Ne.symm hij)

/-- Cleaning all rows changes no column other than `i`. -/
theorem cleanRows_getElem_ne {i j : Nat} (hij : j ≠ i) :
    ∀ {rs rs2 : List (List Cell)}, cleanRows i rs = some rs2 →
      rs2.map (fun r => r[j]?) = rs.map (fun r => r[j]?) := by
  intro rs
  induction rs with
  | nil => intro rs2 h; simp [cleanRows] at h; simp [← h]
  | cons r tl ih =>
    intro rs2 h
    unfold cleanRows at h
    cases hr : cleanRow i r with
    | none => rw [hr] at h; simp at h
    | some r2 =>
      rw [hr] at h
      cases htl : cleanRows i tl with
      | none => rw [htl] at h; simp at h
      | some tl2 =>
        rw [htl] at h
        simp at h
        subst h
        simp [cleanRow_getElem_ne hij hr, ih htl]

/-- A failing cell in some row aborts `cleanRows`. -/
theorem cleanRows_none {i : Nat} :
    ∀ {rs : List (List Cell)} {k : Nat} {r : List Cell}, rs[k]? = some r →
      cleanRow i r = none → cleanRows i rs = none := by
  intro rs
  induction rs with
  | nil => intro k r h; simp at h
  | cons hd tl ih =>
    intro k r h hfail
    cases k with
    | zero =>
      simp at h
      subst h
      unfold cleanRows
      rw [hfail]
    | succ k1 =>
      simp at h
      unfold cleanRows
      rw [ih h hfail]
      cases cleanRow i hd <;> rfl

/-- A failing cell in some row aborts the numeric view of a column. -/
theorem numCells_none {i : Nat} :
    ∀ {rs : List (List Cell)} {k : Nat} {r : List Cell}, rs[k]? = some r →
      (r[i]?).bind cellNum = none → numCells i rs = none := by
  intro rs
  induction rs with
  | nil => intro k r h; simp at h
  | cons hd tl ih =>
    intro k r h hfail
    cases k with
    | zero =>
      simp at h
      subst h
      unfold numCells
      rw [hfail]
    | succ k1 =>
      simp at h
      unfold numCells
      rw [ih h hfail]
      cases (hd[i]?).bind cellNum <;> rfl

/-- Insertion keeps exactly the old entries plus the new one. -/
theorem mem_insertDesc {p q : String × Nat} {l : List (String × Nat)} :
    p ∈ insertDesc q l ↔ p = q ∨ p ∈ l := by
  induction l with
  | nil => simp [insertDesc]
  | cons hd tl ih =>
    unfold insertDesc
    by_cases h : hd.2 < q.2
    · simp [h]
    · simp [h, ih]
      tauto

/-- Sorting by count keeps exactly the same entries. -/
theorem mem_sortDesc {p : String × Nat} : ∀ {l : List (String × Nat)},
    p ∈ sortDesc l ↔ p ∈ l := by
  intro l
  induction l with
  | nil => simp [sortDesc]
  | cons hd tl ih =>
    unfold sortDesc
    rw [mem_insertDesc, ih]
    simp

/-- Membership in `value_counts`: exactly the values present, each with its count. -/
theorem mem_value_counts {vs : List String} {p : String × Nat} :
    p ∈ value_counts vs ↔ p.1 ∈ vs ∧ p.2 = vs.count p.1 := by
  unfold value_counts
  rw [mem_sortDesc]
  constructor
  · intro h
    simp only [List.mem_map] at h
    obtain ⟨v, hv, he⟩ := h
    rw [← he]
    exact ⟨List.mem_dedup.mp hv, rfl⟩
  · intro ⟨h1, h2⟩
    simp only [List.mem_map]
    exact ⟨p.1, List.mem_dedup.mpr h1, by rw [← h2]⟩

/-- The demo table cleans to `demoCleaned`. -/
theorem clean_demo_eq : clean_percentage_column demo_table = some demoCleaned := by
  simp +decide [clean_percentage_column, demo_table, demoCleaned, colIdx, pctCol,
    required_columns, cleanRows, cleanRow, cleanCell, normalizeCell, parseFloat,
    removePct, splitOnDot, digitsVal]

end Lemmas

/-- Claim C1: with the fixed midpoint 3 on both axes and a value equal to 3 counted
as high, the boundary pairs classify as (3,3) Platinum, (2.999,3) Bronze,
(3,2.999) Gold, (2.999,2.999) Silver, and the tie at 3 behaves the same on
the spend axis and on the importance axis. -/
theorem c1_quadrant_boundary_tie_break :
    classify_quadrant 3 3 = "Platinum" ∧
    classify_quadrant (2.999 : ℚ) 3 = "Bronze" ∧
    classify_quadrant 3 (2.999 : ℚ) = "Gold" ∧
    classify_quadrant (2.999 : ℚ) (2.999 : ℚ) = "Silver" ∧
    (∀ v : ℚ, classify_quadrant 3 v = if 3 ≤ v then "Platinum" else "Gold") ∧
    (∀ v : ℚ, classify_quadrant v 3 = if 3 ≤ v then "Platinum" else "Bronze") := by
  refine ⟨by with_unfolding_all decide, by with_unfolding_all decide,
    by with_unfolding_all decide, by with_unfolding_all decide, fun v => ?_, fun v => ?_⟩
  · unfold classify_quadrant
    simp
  · unfold classify_quadrant
    simp

/-- Claim C4: percentage normalization is insensitive to a `%` suffix — normalizing
`s ++ "%"` equals normalizing `s`, `"28%"` and `"28"` both give 28, and
re-normalizing an already stripped cell changes nothing. -/
theorem c4_percentage_normalization_idempotent :
    (∀ s : String, normalizeCell (s ++ "%") = normalizeCell s) ∧
    normalizeCell "28%" = some 28 ∧
    normalizeCell "28" = some 28 ∧
    (∀ s : String, normalizeCell (removePct s) = normalizeCell s) := by
  refine ⟨fun s => ?_, by with_unfolding_all decide, by with_unfolding_all decide,
    fun s => ?_⟩
  · unfold normalizeCell
    rw [removePct_append_pct]
  · unfold normalizeCell
    rw [removePct_idem]

/-- Claim C10: `clean_percentage_column` deletes every `%` in a cell, not only a
trailing one: no `%` survives the strip, and `"%28"` and `"2%8"` both
normalize to 28 instead of failing to parse. -/
theorem c10_strip_all_pct_occurrences :
    (∀ s : String, (removePct s).data.contains '%' = false) ∧
    normalizeCell "%28" = some 28 ∧
    normalizeCell "2%8" = some 28 := by
  refine ⟨fun s => ?_, by with_unfolding_all decide, by with_unfolding_all decide⟩
  exact contains_removePct_eq_false s.data

/-- Claim C3: validation either succeeds with no missing required column or reports
the full set of missing required names; a table lacking exactly `FY25_Revenue`
reports exactly `["FY25_Revenue"]`; and on validation failure neither the
chart spec nor the summary is built. -/
theorem c3_validation_reports_all_missing (t : Table) :
    (validate_data t = true ↔ missing_columns t = []) ∧
    (∀ c, c ∈ missing_columns t ↔ c ∈ required_columns ∧ c ∉ t.columns) ∧
    (validate_data t = false → run_pipeline t = none) ∧
    missing_columns noFY25 = ["FY25_Revenue"] := by
  refine ⟨?_, fun c => ?_, fun h => ?_, by decide⟩
  · unfold validate_data
    exact List.isEmpty_iff
  · unfold missing_columns
    rw [List.mem_filter]
    simp [List.elem_iff]
  · unfold run_pipeline
    rw [h]
    rfl

/-- Witness for C3 at the concrete missing-column table. -/
theorem c3_witness :
    validate_data noFY25 = false ∧ run_pipeline noFY25 = none :=
  ⟨by decide, (c3_validation_reports_all_missing noFY25).2.2.1 (by decide)⟩

/-- Claim C5: a numeric-expected cell that fails to parse makes the pipeline fail:
a bad percentage cell aborts `clean_percentage_column`, a bad cell in any
column kills its numeric view, and a dead numeric view surfaces as `none` in
the revenue and mean summary fields — never as a zero fill. -/
theorem c5_parse_error_propagates (t : Table) (i k : Nat) (r : List Cell)
    (c : Cell) (col : String) :
    (colIdx pctCol t.columns = some i → t.rows[k]? = some r → r[i]? = some c →
      cleanCell c = none → clean_percentage_column t = none) ∧
    (colIdx col t.columns = some i → t.rows[k]? = some r → r[i]? = some c →
      cellNum c = none → getNumCol t col = none) ∧
    (getNumCol t revCol = none → (summarize t).totalRevenue = none) ∧
    (getNumCol t siCol = none → (summarize t).avgStrategicImportance = none) := by
  refine ⟨fun h1 h2 h3 h4 => ?_, fun h1 h2 h3 h4 => ?_, fun h => ?_, fun h => ?_⟩
  · have hrow : cleanRow i r = none := by
      unfold cleanRow
      rw [h3]
      simp [h4]
    have hrows : cleanRows i t.rows = none := cleanRows_none h2 hrow
    simp [clean_percentage_column, h1, hrows]
  · have hcell : (r[i]?).bind cellNum = none := by
      rw [h3]
      simpa using h4
    have hcells : numCells i t.rows = none := numCells_none h2 hcell
    simp [getNumCol, h1, hcells]
  · simp [summarize, h]
  · simp [summarize, meanSI, h]

/-- Witness for C5 at a table whose percentage, revenue and importance cells
are all unparseable. -/
theorem c5_witness :
    clean_percentage_column badTable = none ∧
    getNumCol badTable pctCol = none ∧
    (summarize badTable).totalRevenue = none ∧
    (summarize badTable).avgStrategicImportance = none := by
  have h := c5_parse_error_propagates badTable 5 0
    [.str "X", .str "xx", .str "2", .str "R", .str "oops", .str "abc"]
    (.str "abc") pctCol
  exact ⟨h.1 (by decide) (by decide) (by decide) (by decide),
    h.2.1 (by decide) (by decide) (by decide) (by decide),
    h.2.2.1 (by decide), h.2.2.2 (by decide)⟩

/-- Claim C9: `clean_percentage_column` is a pure transform: the input table is a
value that cannot be mutated, and in the returned table the column list and
the content of every column other than `%_of_Total_Revenue` are unchanged. -/
theorem c9_clean_is_pure (t t2 : Table) (h : clean_percentage_column t = some t2)
    (c : String) (hc : c ≠ pctCol) :
    t2.columns = t.columns ∧ getCol t2 c = getCol t c := by
  unfold clean_percentage_column at h
  cases hcol : colIdx pctCol t.columns with
  | none =>
    rw [hcol] at h
    simp at h
    subst h
    exact ⟨rfl, rfl⟩
  | some i =>
    rw [hcol] at h
    simp at h
    obtain ⟨rs, hrs, ht2⟩ := h
    subst ht2
    refine ⟨rfl, ?_⟩
    unfold getCol
    cases hj : colIdx c t.columns with
    | none => simp [hj]
    | some j =>
      have hji : j ≠ i := by
        intro he
        have h1 := colIdx_getElem hj
        rw [he, colIdx_getElem hcol] at h1
        exact hc (Option.some.inj h1).symm
      simp only [hj, Option.map_some']
      rw [cleanRows_getElem_ne hji hrs]

/-- Witness for C9: cleaning the demo table leaves the client-name column
untouched. -/
theorem c9_witness :
    demoCleaned.columns = demo_table.columns ∧
    getCol demoCleaned "Client_Name" = getCol demo_table "Client_Name" :=
  c9_clean_is_pure demo_table demoCleaned clean_demo_eq "Client_Name" (by decide)

/-- Claim C7: on a zero-row table the chart is built with an empty point list and
the strategic-importance mean is undefined (`none`, rendered `"nan"`), not a
spurious 0 and not a 0/0 crash. -/
theorem c7_empty_table (t : Table) (h : t.rows = []) :
    (create_scatter_plot t).points = [] ∧
    meanSI t = none ∧
    formatMetric (meanSI t) = "nan" := by
  have hg : getNumCol t siCol = none ∨ getNumCol t siCol = some [] := by
    unfold getNumCol
    cases hcol : colIdx siCol t.columns with
    | none => left; rfl
    | some i => rw [h]; right; rfl
  have hm : meanSI t = none := by
    unfold meanSI
    rcases hg with hg | hg <;> simp [hg]
  refine ⟨by simp [create_scatter_plot, h], hm, by rw [hm]; rfl⟩

/-- Witness for C7 at the concrete empty table. -/
theorem c7_witness :
    (create_scatter_plot emptyDemo).points = [] ∧
    meanSI emptyDemo = none ∧
    formatMetric (meanSI emptyDemo) = "nan" :=
  c7_empty_table emptyDemo rfl

/-- Claim C8: the risk distribution lists exactly the risk codes present in the
data with their counts (absent codes are omitted, never zero-filled), each
rendered as `"<label>: <count> clients (<percentage>%)"` with the percentage
of the row count to one decimal; on the demo data this gives the three
rendered lines. -/
theorem c8_risk_distribution_present_only (t : Table) (vs : List String)
    (h : getStrCol t riskCol = some vs) :
    (∀ p : String × Nat, p ∈ value_counts vs ↔ p.1 ∈ vs ∧ p.2 = vs.count p.1) ∧
    riskLines t = (value_counts vs).map (fun p =>
      "• " ++ riskLabel p.1 ++ ": " ++ toString p.2 ++ " clients (" ++
        fmt1 ((p.2 : ℚ) / (vs.length : ℚ) * 100) ++ "%)") ∧
    riskLines demoCleaned =
      ["• Amber (Medium Risk): 6 clients (46.2%)",
       "• Green (Low Risk): 4 clients (30.8%)",
       "• Red (High Risk): 3 clients (23.1%)"] := by
  refine ⟨fun p => mem_value_counts, ?_, ?_⟩
  · unfold riskLines
    rw [h]
  · simp +decide [riskLines, getStrCol, demoCleaned, colIdx, riskCol,
      required_columns, cellToString, value_counts, List.dedup, List.count,
      sortDesc, insertDesc, riskLabel, risk_labels, fmt1, rnd10, qfloor]
    with_unfolding_all decide

/-- Witness for C8 at the demo risk column. -/
theorem c8_witness :
    (∀ p : String × Nat,
      p ∈ value_counts demoRisk ↔ p.1 ∈ demoRisk ∧ p.2 = demoRisk.count p.1) ∧
    riskLines demoCleaned = (value_counts demoRisk).map (fun p =>
      "• " ++ riskLabel p.1 ++ ": " ++ toString p.2 ++ " clients (" ++
        fmt1 ((p.2 : ℚ) / (demoRisk.length : ℚ) * 100) ++ "%)") ∧
    riskLines demoCleaned =
      ["• Amber (Medium Risk): 6 clients (46.2%)",
       "• Green (Low Risk): 4 clients (30.8%)",
       "• Red (High Risk): 3 clients (23.1%)"] :=
  c8_risk_distribution_present_only demoCleaned demoRisk (by decide)

/-- Claim C2 counterexample: on the embedded demo data the claimed summary
(13 clients, 4 Red-risk records, revenue 708,500) is false: the Red-risk
count is 3 and the revenue total is 709,000. -/
theorem c2_counterexample_demo_summary :
    clean_percentage_column demo_table = some demoCleaned ∧
    ¬((summarize demoCleaned).totalClients = 13 ∧
      (summarize demoCleaned).highRiskCount = some 4 ∧
      (summarize demoCleaned).totalRevenue = some 708500) := by
  refine ⟨clean_demo_eq, ?_⟩
  rintro ⟨-, h4, -⟩
  have h3 : (summarize demoCleaned).highRiskCount = some 3 := by
    with_unfolding_all decide
  rw [h3] at h4
  simp at h4

/-- Claim C2 amended: for the embedded demo dataset the summary is 13 clients,
3 Red-risk records (Arctic Tours, Grange Hotel Group, Iceland Tours), and a
revenue total of 709,000. -/
theorem c2_amended_demo_summary :
    clean_percentage_column demo_table = some demoCleaned ∧
    (summarize demoCleaned).totalClients = 13 ∧
    (summarize demoCleaned).highRiskCount = some 3 ∧
    (summarize demoCleaned).totalRevenue = some 709000 ∧
    (demoCleaned.rows.filter (fun r => r[3]? == some (.str "R"))).map
        (fun r => r[0]?) =
      [some (.str "Arctic Tours"), some (.str "Grange Hotel Group"),
       some (.str "Iceland Tours")] := by
  refine ⟨clean_demo_eq, by with_unfolding_all decide,
    by with_unfolding_all decide, ?_, by decide⟩
  simp +decide [summarize, getNumCol, demoCleaned, colIdx, revCol,
    required_columns, numCells, cellNum, parseFloat, splitOnDot, digitsVal,
    pctCol]
  norm_num

/-- Claim C6: for every table the chart spec carries exactly the fixed layout
constants — the four quadrant rectangles in source order, axis ranges
[0.5, 5.5] with tick spacing 1, divider lines at x=3 and y=3 — the risk
color lookup maps R, A, G to their hex colors, and each point's color comes
from that lookup on its risk cell. -/
theorem c6_chart_fixed_constants (t : Table) :
    (create_scatter_plot t).shapes =
      [⟨0.5, 3, 3, 5.5, "lightgray", 0.15⟩,
       ⟨3, 3, 5.5, 5.5, "lightblue", 0.15⟩,
       ⟨0.5, 0.5, 3, 3, "lightyellow", 0.15⟩,
       ⟨3, 0.5, 5.5, 3, "lightgreen", 0.15⟩] ∧
    (create_scatter_plot t).xrange = (0.5, 5.5) ∧
    (create_scatter_plot t).yrange = (0.5, 5.5) ∧
    (create_scatter_plot t).xdtick = 1 ∧
    (create_scatter_plot t).ydtick = 1 ∧
    (create_scatter_plot t).vlines = [3] ∧
    (create_scatter_plot t).hlines = [3] ∧
    lookupColor "R" = some "#FF4444" ∧
    lookupColor "A" = some "#FFA500" ∧
    lookupColor "G" = some "#00AA00" ∧
    (create_scatter_plot t).points = t.rows.map (mkPoint t.columns) ∧
    (∀ cols r, (mkPoint cols r).color = (colIdx riskCol cols).bind fun i =>
      ((r[i]?).map cellToString).bind lookupColor) :=
  ⟨rfl, rfl, rfl, rfl, rfl, rfl, rfl, by decide, by decide, by decide, rfl,
   fun cols r => rfl⟩

end ClientMatrix
